import Mathlib

/-!
Shallow embedding of the Lookout fleet-management hub backend
(`src/backend/server.js`, second document in the file, lines 808-1481 —
the variant whose line numbers the specification's claims cite; the
compliance-event POST handler and the compliance detector exist only in
the first document, lines 1-807, and are embedded from there).

Conventions:
- JavaScript `Map` objects and plain objects used as dictionaries are
  embedded as association lists (`List (String × α)`) with `Map.set`
  replacing in place and `Map.delete` filtering, preserving insertion
  order like the originals.
- `Date.now()` timestamps are passed in explicitly as `Nat` arguments.
- WebSocket side effects (`safeSend`, `broadcastToAdmins`, `ws.close`)
  are reified as an output list of `Out` actions.
- File-system effects of `fs.writeFileSync` inside `saveJsonSafe` are
  modelled by a boolean outcome parameter (`saveOk`) plus an explicit
  file contents value, since the write can fail for external reasons.
-/

namespace Lookout

/-! ## Generic association-list helpers (JS `Map` / object-as-dict) -/

/-- `m.get(k)` on a JS `Map` / `obj[k]` on a dictionary object. -/
def lookupA {α : Type} (l : List (String × α)) (k : String) : Option α :=
  (l.find? (fun p => p.1 = k)).map (fun p => p.2)

/-- `m.set(k, v)` / `obj[k] = v`: replace the entry in place, else
append (JS `Map`s and objects keep insertion order, keys are unique). -/
def setA {α : Type} : List (String × α) → String → α → List (String × α)
  | [], k, v => [(k, v)]
  | p :: rest, k, v =>
    if p.1 = k then (k, v) :: rest else p :: setA rest k v

/-- `m.delete(k)` / `delete obj[k]`. -/
def eraseA {α : Type} (l : List (String × α)) (k : String) :
    List (String × α) :=
  l.filter (fun p => ¬ (p.1 = k))

/-! ## String helpers mirroring the JavaScript string primitives used -/

/-- JS whitespace for `String.prototype.trim` (ASCII subset relevant here). -/
def isWsChar (c : Char) : Bool :=
  c = ' ' || c = '\t' || c = '\n' || c = '\r'

def trimChars (cs : List Char) : List Char :=
  ((cs.dropWhile isWsChar).reverse.dropWhile isWsChar).reverse

/-- `String(s).trim()` -/
def jsTrim (s : String) : String :=
  ⟨trimChars s.data⟩

/-- `s1.includes(s2)` via prefix check at every suffix. -/
def isPrefixL : List Char → List Char → Bool
  | [], _ => true
  | _ :: _, [] => false
  | c :: cs, d :: ds => c = d && isPrefixL cs ds

def containsSub (hay pat : List Char) : Bool :=
  match hay with
  | [] => isPrefixL pat []
  | _ :: rest => isPrefixL pat hay || containsSub rest pat

/-- `s1.includes(s2)` on Lean strings. -/
def jsIncludes (hay pat : String) : Bool :=
  containsSub hay.data pat.data

/-! ## Data model (in-memory records of `server.js`) -/

/-- One element of the `devices` array:
`{ id, connected, lastSeen, agentVersion }` (second variant; the
first variant's extra `name`/`user` fields are irrelevant to the claims). -/
structure Device where
  id : String
  connected : Bool
  lastSeen : Option Nat
  agentVersion : Option String
deriving Repr, DecidableEq

/-- One value of the `deviceAliases` dictionary:
`{ label, updatedAt }`; `updatedAt` (an ISO string of the wall clock in
the source) is modelled as the millisecond clock value. -/
structure AliasEntry where
  label : String
  updatedAt : Nat
deriving Repr, DecidableEq

/-- One element of the `complianceEvents` array. -/
structure CEvent where
  id : String
  deviceId : String
  /-- the source field is called `alias`, a reserved word in Lean -/
  aliasLabel : Option String
  author : String
  context : Option String
  timestamp : Nat
  content : String
  /-- the source field is called `matches`, a reserved word in Lean -/
  matchList : List String
  severity : Option String
  suspicious : Bool
deriving Repr, DecidableEq

/-- One value of the `complianceByDevice` map:
`{ count, lastAt, lastSeverity }`. -/
structure CAgg where
  count : Nat
  lastAt : Nat
  lastSeverity : Option String
deriving Repr, DecidableEq

/-- The hub's mutable in-memory state (module-level variables of
`server.js`): the `devices` array, the `wsAgentsByDeviceId` map
(device id → connection id), the `lastFrameByDevice` and
`lastFrameSentAtByDevice` dictionaries, the `deviceAliases` dictionary
and the compliance log plus its per-device aggregate. -/
structure ServerState where
  devices : List Device
  wsAgentsByDeviceId : List (String × Nat)
  lastFrameByDevice : List (String × String)
  lastFrameSentAtByDevice : List (String × Nat)
  deviceAliases : List (String × AliasEntry)
  complianceEvents : List CEvent
  complianceByDevice : List (String × CAgg)
deriving Repr, DecidableEq

def ServerState.empty : ServerState :=
  ⟨[], [], [], [], [], [], []⟩

/-! ## Device helpers (`normDeviceId`, `findDevice`, `upsertDevice`) -/

/-- `String(id || "").trim()` where the argument may be absent. -/
def normDeviceId (id : Option String) : String :=
  jsTrim (id.getD "")

/-- `devices.find(d => d.id === norm)` (second variant normalises inside). -/
def findDevice (st : ServerState) (id : String) : Option Device :=
  st.devices.find? (fun d => d.id = normDeviceId (some id))

/-- Mutation of the device object found by `findDevice` inside the
`devices` array: the JS code mutates the first object whose `id`
matches, in place. -/
def replaceFirstDevice (key : String) (f : Device → Device) :
    List Device → List Device
  | [] => []
  | d :: rest =>
    if d.id = key then f d :: rest else d :: replaceFirstDevice key f rest

def updDevice (st : ServerState) (id : String) (f : Device → Device) :
    ServerState :=
  { st with devices := replaceFirstDevice (normDeviceId (some id)) f st.devices }

/-- `upsertDevice(id)`: find or push
`{ id, connected: false, lastSeen: null, agentVersion: null }`. -/
def upsertDevice (st : ServerState) (id : String) : ServerState :=
  let did := normDeviceId (some id)
  if (findDevice st did).isSome then st
  else { st with devices := st.devices ++ [⟨did, false, none, none⟩] }

/-! ## WebSocket protocol model -/

/-- Outcome of `jwt.verify(token, JWT_SECRET)`: either the decoded payload
`{ id, username }` signed by `jwt.sign` at login (note: no tenant field is
ever placed in the token), or a thrown verification error. -/
inductive TokenCheck where
  | valid (id : Nat) (username : String)
  | invalid
deriving Repr, DecidableEq

/-- Per-connection flags the server attaches to the `ws` object:
`ws.isAdmin`, `ws.isAgent`, `ws.deviceId`, `ws.adminUser`. `id` is the
identity of the socket (used to compare `Map` entries against sockets). -/
structure Conn where
  id : Nat
  isAdmin : Bool
  isAgent : Bool
  deviceId : Option String
  adminUser : Option String
deriving Repr, DecidableEq

/-- A fresh connection object with no flags set. -/
def Conn.fresh (id : Nat) : Conn :=
  ⟨id, false, false, none, none⟩

/-- JSON messages the server sends (each constructor mirrors one object
literal passed to `safeSend` / `broadcastToAdmins` in the source). -/
inductive Msg where
  | pong
  | devicesSnapshot (devices : List Device)
  | devicePresence (deviceId : String) (online : Bool)
      (lastSeen : Option Nat) (agentVersion : Option (Option String))
  | consentRequest (admin : Option String)
  | consentResponseMsg (deviceId : Option String) (accepted : Bool)
      (reason : Option String)
  | consentStatus (deviceId : String) (status : String)
  | complianceEventMsg (deviceId : String) (count : Nat)
      (severity : Option String) (ts : Nat)
deriving Repr, DecidableEq

/-- A reified socket side effect: `safeSend(ws, m)` to the socket with
the given id, `broadcastToAdmins(m)`, or `ws.close(code, reason)` /
`ws.terminate()` directed at a socket. -/
inductive Out where
  | toConn (connId : Nat) (m : Msg)
  | toAdmins (m : Msg)
  | closeConn (connId : Nat) (code : Nat) (reason : String)
deriving Repr, DecidableEq

/-- `broadcastToAdmins` delivery: the message reaches every client whose
`isAdmin` flag is set (and whose socket is open); there is no other
filter — in particular no tenant filter. -/
def deliverToAdmins (conns : List Conn) (m : Msg) : List (Nat × Msg) :=
  (conns.filter (fun c => c.isAdmin)).map (fun c => (c.id, m))

/-- Parsed incoming JSON messages (`msg.type` dispatch in the handler). -/
inductive InMsg where
  | ping
  | requestRemoteAccess (deviceId : Option String)
  | consentResponseIn (accepted : Bool)
  /-- `{type:"frame", jpegBase64?, jpeg?}` -/
  | frameMsg (jpegBase64 : Option String) (jpeg : Option String)
  /-- `{type:"screen_frame", jpegBase64?, jpeg?}` -/
  | screenFrameMsg (jpegBase64 : Option String) (jpeg : Option String)
  | otherMsg
deriving Repr, DecidableEq

/-- A raw WebSocket message as received by `ws.on("message")`:
either a binary payload, or a text payload already classified by
`JSON.parse` (`text none` = a text that fails to parse).  The handler
runs `JSON.parse(raw.toString())` first; for a binary JPEG payload the
first byte is `0xFF`, which cannot begin a JSON document, so the parse
throws — `jsonStartOk` below captures this necessary condition. -/
inductive WsRaw where
  | binary (bytes : List Nat)
  | text (parsed : Option InMsg)
deriving Repr, DecidableEq

/-- Necessary condition for `JSON.parse` to succeed: the first
non-whitespace byte must be able to start a JSON document
(`{ [ " - digit t f n`).  A JPEG body starts with byte `0xFF`, so it
fails this condition and `JSON.parse` throws on it. -/
def jsonStartOk (bytes : List Nat) : Bool :=
  match bytes.dropWhile (fun b => b = 32 || b = 9 || b = 10 || b = 13) with
  | [] => false
  | b :: _ =>
    b = 123 || b = 91 || b = 34 || b = 45 ||
    (48 ≤ b && b ≤ 57) || b = 116 || b = 102 || b = 110

/-- Frame-rate throttle interval of the second variant:
`const MIN_FRAME_INTERVAL_MS = 250; // 4fps máximo`. -/
def MIN_FRAME_INTERVAL_MS : Nat := 250

def PRESENCE_TTL_MS : Nat := 15000

/-! ## `wss.on("connection")` (second variant, lines 1270-1321) -/

/-- The query parameters of the upgrade URL.  The handler reads only
`role`, `deviceId`, `token` and `v`; the `tenant` parameter that the
desktop agent sends (`desktop-agent/main.js` builds
`...&tenant=<CLA1|...>&...`) is present here to show it is never read. -/
structure QueryParams where
  role : Option String
  deviceId : Option String
  token : TokenCheck
  v : Option String
  tenant : Option String
deriving Repr, DecidableEq

/-- Result of running the connection callback: the socket is either
closed (`ws.close(code, reason)` followed by `return` — no handlers kept)
or left open carrying its flags, with the new server state and the
side effects already produced by the admit path. -/
inductive ConnOutcome where
  | closed (code : Nat) (reason : String)
  | opened (c : Conn) (st : ServerState) (outs : List Out)
deriving Repr, DecidableEq

/-- `wss.on("connection", (ws, req) => ...)` of the second variant.
Admin role: verify the token; on success set `isAdmin`/`adminUser` and
send a `devices_snapshot` of the raw device records; on failure
`close(1008)`.  Agent role with a non-empty (trimmed) deviceId: upsert
the device, mark it connected, overwrite the `wsAgentsByDeviceId` entry
and broadcast presence-online.  Every other combination (no role,
unknown role, agent without deviceId) falls through with no flags set —
the socket stays open and still gets the message handlers. -/
def wssConnection (st : ServerState) (connId : Nat) (q : QueryParams)
    (now : Nat) : ConnOutcome :=
  let deviceId := normDeviceId q.deviceId
  let agentVersion :=
    let s := jsTrim (q.v.getD "")
    if s = "" then none else some s
  if q.role = some "admin" then
    match q.token with
    | .valid _ uname =>
      .opened { Conn.fresh connId with isAdmin := true, adminUser := some uname }
        st [Out.toConn connId (Msg.devicesSnapshot st.devices)]
    | .invalid => .closed 1008 "invalid admin token"
  else if q.role = some "agent" ∧ deviceId ≠ "" then
    let st1 := upsertDevice st deviceId
    let st2 := updDevice st1 deviceId (fun d =>
      { d with connected := true, lastSeen := some now,
               agentVersion := match agentVersion with
                               | some v => some v
                               | none => d.agentVersion })
    let d := (findDevice st2 deviceId).getD ⟨deviceId, true, some now, none⟩
    let st3 := { st2 with
      wsAgentsByDeviceId := setA st2.wsAgentsByDeviceId deviceId connId }
    .opened { Conn.fresh connId with isAgent := true, deviceId := some deviceId }
      st3
      [Out.toAdmins (Msg.devicePresence deviceId true d.lastSeen
        (some d.agentVersion))]
  else
    .opened (Conn.fresh connId) st []

/-! ## `ws.on("message")` (second variant, lines 1323-1440) -/

/-- The dispatch on a parsed JSON message.  `openConns` lists the ids of
sockets currently in `readyState === OPEN` (used by the
`request_remote_access` branch to test the agent socket). -/
def wsMessageJson (st : ServerState) (openConns : List Nat) (c : Conn)
    (m : InMsg) (now : Nat) : ServerState × List Out :=
  match m with
  | .ping =>
    let st' :=
      if c.isAgent ∧ c.deviceId.isSome then
        let did := c.deviceId.getD ""
        updDevice (upsertDevice st did) did (fun d => { d with lastSeen := some now })
      else st
    (st', [Out.toConn c.id Msg.pong])
  | .requestRemoteAccess did =>
    if c.isAdmin then
      let targetId := normDeviceId did
      match lookupA st.wsAgentsByDeviceId targetId with
      | some agentConn =>
        if agentConn ∈ openConns then
          (st, [Out.toConn agentConn (Msg.consentRequest c.adminUser),
                Out.toConn c.id (Msg.consentStatus targetId "sent_to_agent")])
        else
          (st, [Out.toConn c.id
            (Msg.consentResponseMsg (some targetId) false (some "agent_offline"))])
      | none =>
        (st, [Out.toConn c.id
          (Msg.consentResponseMsg (some targetId) false (some "agent_offline"))])
    else (st, [])
  | .consentResponseIn accepted =>
    if c.isAgent then
      (st, [Out.toAdmins (Msg.consentResponseMsg c.deviceId accepted none)])
    else (st, [])
  | .frameMsg jb j => handleFrame st c jb j now
  | .screenFrameMsg jb j => handleFrame st c jb j now
  | .otherMsg => (st, [])
where
  /-- The `frame` / `screen_frame` branch: extract the payload string
  (`jpegBase64` if a string, else `jpeg`, else `""`), bail on empty,
  refresh presence, throttle against `lastFrameSentAtByDevice`, and only
  then store the payload verbatim in `lastFrameByDevice`. -/
  handleFrame (st : ServerState) (c : Conn) (jb j : Option String)
      (now : Nat) : ServerState × List Out :=
    if c.isAgent then
      let id := c.deviceId.getD ""
      let payload :=
        match jb with
        | some s => s
        | none => match j with
                  | some s => s
                  | none => ""
      if payload = "" then (st, [])
      else
        let st1 := updDevice (upsertDevice st id) id
          (fun d => { d with lastSeen := some now })
        let lastAt := (lookupA st1.lastFrameSentAtByDevice id).getD 0
        if now - lastAt < MIN_FRAME_INTERVAL_MS then (st1, [])
        else
          let st2 := { st1 with
            lastFrameSentAtByDevice := setA st1.lastFrameSentAtByDevice id now,
            lastFrameByDevice := setA st1.lastFrameByDevice id payload }
          (st2, [])
    else (st, [])

/-- `ws.on("message")` entry point: `JSON.parse(raw.toString())`; a
binary (JPEG) payload or unparsable text is logged and dropped. -/
def wsMessage (st : ServerState) (openConns : List Nat) (c : Conn)
    (raw : WsRaw) (now : Nat) : ServerState × List Out :=
  match raw with
  | .binary _ => (st, [])
  | .text none => (st, [])
  | .text (some m) => wsMessageJson st openConns c m now

/-! ## `ws.on("close")` (second variant, lines 1442-1464) -/

/-- The close handler: for an agent socket, mark the device
disconnected, delete the `wsAgentsByDeviceId` entry for its deviceId
(unconditionally — with no check that the entry still refers to this
very socket) and broadcast presence-offline. -/
def wsClose (st : ServerState) (c : Conn) (now : Nat) :
    ServerState × List Out :=
  if c.isAgent ∧ c.deviceId.isSome then
    let did := c.deviceId.getD ""
    let st1 := updDevice st did (fun d => { d with connected := false })
    let st2 := { st1 with wsAgentsByDeviceId := eraseA st1.wsAgentsByDeviceId did }
    (st2, [Out.toAdmins (Msg.devicePresence did false (some now) none)])
  else (st, [])

/-! ## Base64 (`Buffer.from(s, "base64")` and the agent-side encoding) -/

def b64chars : List Char :=
  "ABCDEFGHIJKLMNOPQRSTUVWXYZabcdefghijklmnopqrstuvwxyz0123456789+/".data

def b64c (n : Nat) : Char := b64chars.getD n 'A'

/-- Index of a char in the base64 alphabet (`none` for `=` and any
foreign character, which Node's lenient decoder skips). -/
def b64val (c : Char) : Option Nat :=
  b64chars.indexOf? c

/-- Standard base64 encoding of a byte sequence, as produced by
`Buffer.prototype.toString("base64")` on the agent side. -/
def base64EncodeChars : List Nat → List Char
  | [] => []
  | [b1] => [b64c (b1 / 4), b64c (b1 % 4 * 16), '=', '=']
  | [b1, b2] =>
    [b64c (b1 / 4), b64c (b1 % 4 * 16 + b2 / 16), b64c (b2 % 16 * 4), '=']
  | b1 :: b2 :: b3 :: rest =>
    b64c (b1 / 4) :: b64c (b1 % 4 * 16 + b2 / 16) ::
    b64c (b2 % 16 * 4 + b3 / 64) :: b64c (b3 % 64) ::
    base64EncodeChars rest

def base64Encode (bs : List Nat) : String := ⟨base64EncodeChars bs⟩

/-- Sextet groups back to bytes (trailing group of 2 or 3 sextets yields
1 or 2 bytes; a lone trailing sextet is dropped, as Node does). -/
def b64DecodeVals : List Nat → List Nat
  | v1 :: v2 :: v3 :: v4 :: rest =>
    (v1 * 4 + v2 / 16) :: (v2 % 16 * 16 + v3 / 4) :: (v3 % 4 * 64 + v4) ::
    b64DecodeVals rest
  | [v1, v2] => [v1 * 4 + v2 / 16]
  | [v1, v2, v3] => [v1 * 4 + v2 / 16, v2 % 16 * 16 + v3 / 4]
  | _ => []

/-- `Buffer.from(s, "base64")`: Node ignores characters outside the
alphabet (including `=` padding) and decodes the rest. -/
def base64Decode (s : String) : List Nat :=
  b64DecodeVals (s.data.filterMap b64val)

/-! ## `stripDataUrlToBase64` (second variant, lines 1027-1032) -/

/-- Result record `{ mime, base64, isDataUrl, raw }`. -/
structure StripInfo where
  mime : String
  base64 : String
  isDataUrl : Bool
  raw : String
deriving Repr, DecidableEq

/-- `\w` of the regex `^data:(image\/\w+);base64,(.*)$`. -/
def isWordChar (c : Char) : Bool :=
  ('a' ≤ c && c ≤ 'z') || ('A' ≤ c && c ≤ 'Z') || ('0' ≤ c && c ≤ '9') || c = '_'

/-- `stripDataUrlToBase64`: match the data-URL regex (`.` does not match
a newline), else treat the whole string as raw base64 with the default
`image/jpeg` mime. -/
def stripDataUrlToBase64 (s : String) : StripInfo :=
  let cs := s.data
  if isPrefixL "data:image/".data cs then
    let rest := cs.drop 11
    let w := rest.takeWhile isWordChar
    let rest2 := rest.drop w.length
    if w ≠ [] ∧ isPrefixL ";base64,".data rest2 ∧
        ((rest2.drop 8).all (fun c => ¬ (c = '\n'))) then
      { mime := ⟨"image/".data ++ w⟩, base64 := ⟨rest2.drop 8⟩,
        isDataUrl := true, raw := s }
    else { mime := "image/jpeg", base64 := s, isDataUrl := false, raw := s }
  else { mime := "image/jpeg", base64 := s, isDataUrl := false, raw := s }

/-! ## REST handlers (second variant) -/

/-- The JSON record produced per device by `GET /api/devices`
(line 1108-1121): spreads the raw device fields plus the compliance
aggregate state; `name` is just the id. -/
structure DeviceDTO where
  id : String
  deviceId : String
  name : String
  connected : Bool
  online : Bool
  lastSeen : Option Nat
  agentVersion : Option String
  complianceFlag : Bool
  complianceCount : Nat
  complianceLastAt : Option Nat
  complianceLastSeverity : Option String
deriving Repr, DecidableEq

/-- `getComplianceState(deviceId)` (second variant, lines 941-957). -/
def getComplianceState (st : ServerState) (deviceId : String) :
    Bool × Nat × Option Nat × Option String :=
  match lookupA st.complianceByDevice (jsTrim deviceId) with
  | none => (false, 0, none, none)
  | some agg =>
    (agg.count > 0, agg.count,
     if agg.lastAt = 0 then none else some agg.lastAt,
     agg.lastSeverity)

def deviceDTO (st : ServerState) (d : Device) : DeviceDTO :=
  let comp := getComplianceState st d.id
  { id := d.id, deviceId := d.id, name := d.id,
    connected := d.connected, online := d.connected,
    lastSeen := d.lastSeen, agentVersion := d.agentVersion,
    complianceFlag := comp.1, complianceCount := comp.2.1,
    complianceLastAt := comp.2.2.1, complianceLastSeverity := comp.2.2.2 }

/-- `GET /api/devices` behind `authenticateAdmin`: 401 (`none`) without a
valid bearer token; otherwise the full device list is returned — the
decoded token identity is never consulted by the handler body. -/
def apiDevices (st : ServerState) (tok : TokenCheck) :
    Option (List DeviceDTO) :=
  match tok with
  | .invalid => none
  | .valid _ _ => some (st.devices.map (deviceDTO st))

/-- Response shape of `GET /api/devices/:deviceId/frame`. -/
inductive FrameResp where
  | noAuth
  | notFound
  | ok (mime : String) (body : List Nat)
deriving Repr, DecidableEq

/-- `GET /api/devices/:deviceId/frame` behind `authenticateAdminFlex`
(Bearer header or `?token=`): look up the stored payload string, strip a
possible data-URL wrapper, base64-decode and serve
(`Buffer.from(s, "base64")` does not throw on strings, so the catch
branch is unreachable). -/
def apiFrame (st : ServerState) (tok : TokenCheck) (deviceIdRaw : String) :
    FrameResp :=
  match tok with
  | .invalid => .noAuth
  | .valid _ _ =>
    let deviceId := normDeviceId (some deviceIdRaw)
    match lookupA st.lastFrameByDevice deviceId with
    | none => .notFound
    | some frameRaw =>
      let info := stripDataUrlToBase64 frameRaw
      .ok info.mime (base64Decode info.base64)

/-- Opening `GET /api/devices/:deviceId/mjpeg` (lines 1153-1194): the
handler writes the multipart header and installs a per-response interval
timer.  It touches no server state, keeps no per-device viewer count,
and sends nothing over any WebSocket. -/
structure MjpegOpen where
  status : Nat
  contentType : String
  st : ServerState
  wsOuts : List Out
deriving Repr, DecidableEq

def mjpegOpen (st : ServerState) (tok : TokenCheck) (deviceIdRaw : String) :
    Option MjpegOpen :=
  match tok with
  | .invalid => none
  | .valid _ _ =>
    let _ := normDeviceId (some deviceIdRaw)
    some { status := 200,
           contentType := "multipart/x-mixed-replace; boundary=frame",
           st := st, wsOuts := [] }

/-- One tick of the mjpeg interval timer: emit the current frame part
(mime × body) or nothing when no frame is stored. -/
def mjpegTick (st : ServerState) (deviceId : String) :
    Option (String × List Nat) :=
  match lookupA st.lastFrameByDevice deviceId with
  | none => none
  | some frameRaw =>
    let info := stripDataUrlToBase64 frameRaw
    some (info.mime, base64Decode info.base64)

/-- Closing the mjpeg response (`req.on("close")`): clears the timer and
ends the response; again no state change and no WebSocket message. -/
def mjpegClose (st : ServerState) : ServerState × List Out := (st, [])

/-! ## Alias persistence (`PUT /api/device-aliases/:deviceId`,
second variant lines 1201-1211) -/

/-- Contents of `data/device-aliases.json` (`none` = file absent). -/
def FileAliases : Type := Option (List (String × AliasEntry))

/-- `saveJsonSafe(ALIASES_PATH, obj)`: on success the file now holds
`obj`; on failure (`writeFileSync` threw) it is unchanged and the
function returns `false`. -/
def saveJsonSafeAliases (saveOk : Bool) (file : FileAliases)
    (obj : List (String × AliasEntry)) : Bool × FileAliases :=
  if saveOk then (true, some obj) else (false, file)

/-- `loadJsonSafe(ALIASES_PATH, {})` at startup. -/
def loadAliases (file : FileAliases) : List (String × AliasEntry) :=
  file.getD []

/-- Response of the alias PUT route. -/
inductive AliasResp where
  | badRequest
  | okResp (deviceId : String) (label : String) (updatedAt : Nat)
deriving Repr, DecidableEq

/-- `app.put("/api/device-aliases/:deviceId")`, second variant: trim the
label (non-strings become `""`), reject an empty id with 400, then
unconditionally store `{ label, updatedAt }` — including for the empty
label — call `saveJsonSafe` and ignore its result, and reply
`{ ok:true, deviceId, label, updatedAt }`. -/
def putAliasHandler (st : ServerState) (file : FileAliases)
    (deviceIdRaw : String) (bodyLabel : Option String) (saveOk : Bool)
    (now : Nat) : AliasResp × ServerState × FileAliases :=
  let id := normDeviceId (some deviceIdRaw)
  let label := match bodyLabel with
               | some s => jsTrim s
               | none => ""
  if id = "" then (.badRequest, st, file)
  else
    let entry : AliasEntry := ⟨label, now⟩
    let aliases' := setA st.deviceAliases id entry
    let st' := { st with deviceAliases := aliases' }
    let (_, file') := saveJsonSafeAliases saveOk file aliases'
    (.okResp id label now, st', file')

/-- `GET /api/device-aliases`: returns the dictionary verbatim. -/
def apiListAliases (st : ServerState) (tok : TokenCheck) :
    Option (List (String × AliasEntry)) :=
  match tok with
  | .invalid => none
  | .valid _ _ => some st.deviceAliases

/-! ## Compliance detector (first variant, lines 129-249; the compliance
POST route exists only in that variant) -/

/-- Accent stripping: `normalize("NFD").replace(/[̀-ͯ]/g, "")`
maps each precomposed Latin letter to its base letter (applied after
lowercasing, so only lowercase letters matter on the inputs involved). -/
def stripAccent (c : Char) : Char :=
  if c = 'á' || c = 'à' || c = 'â' || c = 'ã' || c = 'ä' then 'a'
  else if c = 'é' || c = 'è' || c = 'ê' || c = 'ë' then 'e'
  else if c = 'í' || c = 'ì' || c = 'î' || c = 'ï' then 'i'
  else if c = 'ó' || c = 'ò' || c = 'ô' || c = 'õ' || c = 'ö' then 'o'
  else if c = 'ú' || c = 'ù' || c = 'û' || c = 'ü' then 'u'
  else if c = 'ç' then 'c'
  else c

/-- The leetspeak substitutions of `normalizeText`. -/
def leetChar (c : Char) : Char :=
  if c = '@' then 'a'
  else if c = '$' then 's'
  else if c = '0' then 'o'
  else if c = '1' then 'i'
  else if c = '3' then 'e'
  else if c = '4' then 'a'
  else if c = '5' then 's'
  else if c = '7' then 't'
  else c

/-- `[^a-z0-9\s]` replacement by a space after lowercasing and leet. -/
def keepOrSpace (c : Char) : Char :=
  if ('a' ≤ c && c ≤ 'z') || ('0' ≤ c && c ≤ '9') || isWsChar c then c
  else ' '

/-- `replace(/\s+/g, " ")`: collapse every whitespace run to one space
(the boolean records whether the previous character was whitespace). -/
def collapseWsAux : Bool → List Char → List Char
  | _, [] => []
  | prevWs, c :: rest =>
    if isWsChar c then
      if prevWs then collapseWsAux true rest
      else ' ' :: collapseWsAux true rest
    else c :: collapseWsAux false rest

def collapseWs (cs : List Char) : List Char :=
  collapseWsAux false cs

/-- `normalizeText(s)` (first variant, lines 129-152). -/
def normalizeText (s : String) : String :=
  ⟨trimChars (collapseWs
      (((s.data.map Char.toLower).map stripAccent).map leetChar
        |>.map keepOrSpace))⟩

/-- `COMPLIANCE_TRIGGERS` (first variant, lines 155-206). -/
def COMPLIANCE_TRIGGERS : List String :=
  [ "pode mandar o valor direto pra mim",
    "manda pra minha conta",
    "acerta por fora",
    "acerta isso por fora",
    "faz o pix nesse outro numero",
    "nao precisa passar pela empresa",
    "esse valor nao precisa ir na nota",
    "sem envolver o financeiro",
    "esse pagamento nao precisa aparecer",
    "isso nao entra no caixa da empresa",
    "comissao por fora",
    "parte pra mim",
    "fica uma parte pra mim",
    "a diferenca e minha",
    "esse dinheiro nao aparece",
    "nao lanca isso agora",
    "melhor nao colocar no sistema",
    "coloca outro valor na nota",
    "nao precisa gerar nf",
    "nao registra isso",
    "fora do sistema",
    "sem nota",
    "fica so entre nos",
    "a empresa nao precisa saber",
    "nao comenta isso com ninguem",
    "isso e um acordo nosso",
    "porra",
    "caralho",
    "merda",
    "bosta",
    "foda se",
    "vai tomar no cu",
    "vai se foder",
    "fdp",
    "filho da puta",
    "arrombado",
    "babaca",
    "idiota",
    "imbecil",
    "otario",
    "trouxa",
    "pqp",
    "vtnc" ]

def joinSep (sep : String) : List String → String
  | [] => ""
  | [s] => s
  | s :: rest => s ++ sep ++ joinSep sep rest

/-- `detectCompliance(content)` (first variant, lines 208-249):
returns `(suspicious, matches, severity)`. -/
def detectCompliance (content : String) :
    Bool × List String × Option String :=
  let norm := normalizeText content
  let ms := COMPLIANCE_TRIGGERS.filter (fun t =>
    let nt := normalizeText t
    ¬ (nt = "") ∧ jsIncludes norm nt)
  if ms = [] then (false, [], none)
  else
    let normJoined := joinSep " | " (ms.map normalizeText)
    let severity :=
      if jsIncludes normJoined "por fora" || jsIncludes normJoined "pix" ||
         jsIncludes normJoined "dinheiro" ||
         jsIncludes normJoined "comissao" ||
         jsIncludes normJoined "parte pra mim" ||
         jsIncludes normJoined "a diferenca e minha" then "high"
      else if jsIncludes normJoined "nota" ||
              jsIncludes normJoined "sistema" ||
              jsIncludes normJoined "nf" ||
              jsIncludes normJoined "nao registra" ||
              jsIncludes normJoined "fora do sistema" then "medium"
      else "low"
    (true, ms, some severity)

/-! ## Compliance aggregate and the POST route -/

/-- `recomputeComplianceAgg()` (second variant, lines 918-938; the first
variant's copy is behaviourally identical): replay the whole event log —
counting every event, suspicious or not — and track the latest
timestamp's severity (`ev?.severity ?? prev.lastSeverity`). -/
def recomputeComplianceAgg (events : List CEvent) : List (String × CAgg) :=
  events.foldl (fun acc ev =>
    let id := jsTrim ev.deviceId
    if id = "" then acc
    else
      let prev := (lookupA acc id).getD ⟨0, 0, none⟩
      let ts := ev.timestamp
      let next : CAgg :=
        if ts ≥ prev.lastAt then
          ⟨prev.count + 1, ts,
           match ev.severity with
           | some s => some s
           | none => prev.lastSeverity⟩
        else ⟨prev.count + 1, prev.lastAt, prev.lastSeverity⟩
      setA acc id next) []

/-- `getAliasLabel(deviceId)` (first variant, lines 63-67). -/
def getAliasLabel (st : ServerState) (deviceId : String) : String :=
  match lookupA st.deviceAliases (jsTrim deviceId) with
  | none => ""
  | some e => if e.label = "" then "" else jsTrim e.label

/-- Contents of `data/compliance-events.json` (`none` = file absent). -/
def FileCEvents : Type := Option (List CEvent)

def saveJsonSafeCEvents (saveOk : Bool) (file : FileCEvents)
    (obj : List CEvent) : Bool × FileCEvents :=
  if saveOk then (true, some obj) else (false, file)

/-- `loadJsonSafe(COMPLIANCE_EVENTS_PATH, [])` at startup; the aggregate
map is then rebuilt by `recomputeComplianceAgg()`. -/
def startupComplianceState (file : FileCEvents) :
    List CEvent × List (String × CAgg) :=
  let events := file.getD []
  (events, recomputeComplianceAgg events)

inductive CResp where
  | badRequest (msg : String)
  | serverError
  | okResp (suspicious : Bool) (event : CEvent)
deriving Repr, DecidableEq

/-- `app.post("/api/compliance/events")` (first variant, lines 417-465):
validate, run the detector, append the event to the log, persist (a
failed save replies 500 but the event stays in the in-memory list), and
only when the event is suspicious update the in-memory aggregate and
broadcast a `compliance_event`. -/
def postComplianceEvent (st : ServerState) (file : FileCEvents)
    (adminUser : String) (bodyDeviceId bodyContext bodyContent : Option String)
    (saveOk : Bool) (now : Nat) (rand : String) :
    CResp × ServerState × FileCEvents × List Out :=
  let deviceId := normDeviceId bodyDeviceId
  let context := jsTrim (bodyContext.getD "")
  let content := jsTrim (bodyContent.getD "")
  let author := jsTrim adminUser
  if deviceId = "" then (.badRequest "deviceId obrigatório", st, file, [])
  else if content = "" then (.badRequest "content obrigatório", st, file, [])
  else
    let det := detectCompliance content
    let suspicious := det.1
    let ms := det.2.1
    let severity := det.2.2
    let ev : CEvent :=
      { id := "cev_" ++ toString now ++ "_" ++ rand,
        deviceId := deviceId,
        aliasLabel := if getAliasLabel st deviceId = "" then none
                      else some (getAliasLabel st deviceId),
        author := author,
        context := if context = "" then none else some context,
        timestamp := now,
        content := content,
        matchList := ms,
        severity := if suspicious then severity else none,
        suspicious := suspicious }
    let events' := st.complianceEvents ++ [ev]
    let st1 := { st with complianceEvents := events' }
    let (ok, file') := saveJsonSafeCEvents saveOk file events'
    if ¬ ok then (.serverError, st1, file', [])
    else if suspicious then
      let prev := (lookupA st1.complianceByDevice deviceId).getD ⟨0, 0, none⟩
      let agg : CAgg := ⟨prev.count + 1, ev.timestamp, ev.severity⟩
      let st2 := { st1 with
        complianceByDevice := setA st1.complianceByDevice deviceId agg }
      (.okResp suspicious ev, st2, file',
       [Out.toAdmins (Msg.complianceEventMsg deviceId agg.count ev.severity
          ev.timestamp)])
    else (.okResp suspicious ev, st1, file', [])

/-! ## Spec-side tenant policy and derived predicates -/

/-- Modelled from the spec: the Tenant Policy (TP) pure function
`canAccessTenant(allowed, tenant) = allowed contains "*" OR allowed
contains tenant`.  No counterpart exists anywhere in `server.js`; this
definition follows the spec's words so the code's behaviour can be
compared against it. -/
def canAccessTenant (allowed : List String) (tenant : String) : Bool :=
  allowed.contains "*" || allowed.contains tenant

/-- "An open agent session exists for this device": the
`wsAgentsByDeviceId` entry exists and that socket is in
`readyState === OPEN` (`!agentWs || agentWs.readyState !== OPEN`
negated). -/
def agentSessionOpen (st : ServerState) (openConns : List Nat)
    (deviceId : String) : Bool :=
  match lookupA st.wsAgentsByDeviceId deviceId with
  | some cid => decide (cid ∈ openConns)
  | none => false

/-! ## Concrete scenario states used by the per-claim evaluations -/

/-- C1: upgrade query of an agent that announces tenant `CLA1`. -/
def c1AgentParams : QueryParams :=
  ⟨some "agent", some "dev-1", .invalid, some "1.0.5", some "CLA1"⟩

/-- C1: hub state after that agent is admitted as connection 1. -/
def c1State : ServerState :=
  ⟨[⟨"dev-1", true, some 100, some "1.0.5"⟩], [("dev-1", 1)],
   [], [], [], [], []⟩

/-- C2: upgrade query used by both competing agent connections. -/
def c2AgentParams : QueryParams :=
  ⟨some "agent", some "d", .invalid, none, some "CLA1"⟩

def c2conn1 : Conn := ⟨1, false, true, some "d", none⟩

def c2conn2 : Conn := ⟨2, false, true, some "d", none⟩

/-- C2: state after the first agent connection for `d`. -/
def c2stA : ServerState :=
  ⟨[⟨"d", true, some 100, none⟩], [("d", 1)], [], [], [], [], []⟩

/-- C2: state after the second agent connection supplants the first. -/
def c2stB : ServerState :=
  ⟨[⟨"d", true, some 200, none⟩], [("d", 2)], [], [], [], [], []⟩

/-- C3: a device whose agent is connected as connection 1. -/
def c3State : ServerState :=
  ⟨[⟨"dev-1", true, some 50, none⟩], [("dev-1", 1)], [], [], [], [], []⟩

/-- C4 witness: an agent for `d` lives on connection 5. -/
def c4State : ServerState :=
  ⟨[⟨"d", true, some 10, none⟩], [("d", 5)], [], [], [], [], []⟩

def c4AdminConn : Conn := ⟨9, true, false, none, some "root"⟩

/-- C5 witness: the previous frame for `d` was accepted at t = 100. -/
def c5State : ServerState :=
  ⟨[⟨"d", true, some 100, none⟩], [("d", 1)], [("d", "OLD")], [("d", 100)],
   [], [], []⟩

def c5AgentConn : Conn := ⟨1, false, true, some "d", none⟩

def c6AgentConn : Conn := ⟨1, false, true, some "d", none⟩

/-- C6: the JPEG header bytes `FF D8 FF E0` as a binary WS payload. -/
def c6B : List Nat := [255, 216, 255, 224]

/-- C8: the divergence-triggering append (a content that matches no
compliance trigger, so `suspicious = false`). -/
def c8Result : CResp × ServerState × FileCEvents × List Out :=
  postComplianceEvent ServerState.empty none "admin" (some "d1") none
    (some "hello") true 1000 "r0"

/-- C9: an alias for `dev-9` exists in memory and on disk. -/
def c9State : ServerState :=
  { ServerState.empty with deviceAliases := [("dev-9", ⟨"Front Desk", 10⟩)] }

def c9Result : AliasResp × ServerState × FileAliases :=
  putAliasHandler c9State (some [("dev-9", ⟨"Front Desk", 10⟩)]) "dev-9"
    (some "") true 20

/-! ## Helper lemmas about the map and device primitives -/

theorem lookupA_setA {α : Type} (l : List (String × α)) (k : String) (v : α) :
    lookupA (setA l k v) k = some v := by
  induction l with
  | nil => simp [setA, lookupA, List.find?]
  | cons p rest ih =>
    by_cases h : p.1 = k
    · simp [setA, h, lookupA, List.find?]
    · simp only [setA, h, if_false]
      unfold lookupA at ih ⊢
      simp only [List.find?, h, decide_False]
      exact ih

theorem lookupA_eraseA {α : Type} (l : List (String × α)) (k : String) :
    lookupA (eraseA l k) k = none := by
  unfold lookupA eraseA
  induction l with
  | nil => simp
  | cons p rest ih =>
    simp only [decide_not] at ih ⊢
    by_cases h : p.1 = k
    · simp only [List.filter, h, decide_True, Bool.not_true]
      exact ih
    · simp only [List.filter, h, decide_False, Bool.not_false, List.find?]
      exact ih

theorem findDevice_updDevice (st : ServerState) (id : String)
    (f : Device → Device) (hid : ∀ d, (f d).id = d.id) :
    findDevice (updDevice st id f) id = (findDevice st id).map f := by
  unfold findDevice updDevice
  dsimp only
  generalize st.devices = l
  induction l with
  | nil => simp [replaceFirstDevice]
  | cons d rest ih =>
    by_cases h : d.id = normDeviceId (some id)
    · simp only [replaceFirstDevice, h, if_true, List.find?, hid, decide_True]
      simp [h]
    · simp only [replaceFirstDevice, h, if_false, List.find?, decide_False]
      exact ih

/-- `upsertDevice` and `updDevice` only touch the `devices` field. -/
theorem upsertDevice_frames (st : ServerState) (id : String) :
    (upsertDevice st id).wsAgentsByDeviceId = st.wsAgentsByDeviceId ∧
    (upsertDevice st id).lastFrameByDevice = st.lastFrameByDevice ∧
    (upsertDevice st id).lastFrameSentAtByDevice = st.lastFrameSentAtByDevice ∧
    (upsertDevice st id).deviceAliases = st.deviceAliases ∧
    (upsertDevice st id).complianceEvents = st.complianceEvents ∧
    (upsertDevice st id).complianceByDevice = st.complianceByDevice := by
  refine ⟨?_, ?_, ?_, ?_, ?_, ?_⟩ <;>
    (unfold upsertDevice; dsimp only; split <;> rfl)

theorem updDevice_frames (st : ServerState) (id : String) (f : Device → Device) :
    (updDevice st id f).wsAgentsByDeviceId = st.wsAgentsByDeviceId ∧
    (updDevice st id f).lastFrameByDevice = st.lastFrameByDevice ∧
    (updDevice st id f).lastFrameSentAtByDevice = st.lastFrameSentAtByDevice ∧
    (updDevice st id f).deviceAliases = st.deviceAliases ∧
    (updDevice st id f).complianceEvents = st.complianceEvents ∧
    (updDevice st id f).complianceByDevice = st.complianceByDevice := by
  simp [updDevice]

/-! ## Helper lemmas about base64 -/

theorem b64val_b64c : ∀ v : Nat, v < 64 → b64val (b64c v) = some v := by
  decide

theorem b64val_eq : b64val '=' = none := by decide

theorem base64_roundtrip (bs : List Nat) (hb : ∀ b ∈ bs, b < 256) :
    base64Decode (base64Encode bs) = bs := by
  show b64DecodeVals (List.filterMap b64val (base64EncodeChars bs)) = bs
  induction bs using base64EncodeChars.induct with
  | case1 => simp [base64EncodeChars, b64DecodeVals]
  | case2 b1 =>
    have h1 : b1 < 256 := hb b1 (by simp)
    have e1 : b64val (b64c (b1 / 4)) = some (b1 / 4) :=
      b64val_b64c _ (by omega)
    have e2 : b64val (b64c (b1 % 4 * 16)) = some (b1 % 4 * 16) :=
      b64val_b64c _ (by omega)
    simp only [base64EncodeChars, List.filterMap_cons, e1, e2, b64val_eq,
      b64DecodeVals, List.filterMap_nil, List.cons_eq_cons]
    exact ⟨by omega, trivial⟩
  | case3 b1 b2 =>
    have h1 : b1 < 256 := hb b1 (by simp)
    have h2 : b2 < 256 := hb b2 (by simp)
    have e1 : b64val (b64c (b1 / 4)) = some (b1 / 4) :=
      b64val_b64c _ (by omega)
    have e2 : b64val (b64c (b1 % 4 * 16 + b2 / 16)) =
        some (b1 % 4 * 16 + b2 / 16) := b64val_b64c _ (by omega)
    have e3 : b64val (b64c (b2 % 16 * 4)) = some (b2 % 16 * 4) :=
      b64val_b64c _ (by omega)
    simp only [base64EncodeChars, List.filterMap_cons, e1, e2, e3, b64val_eq,
      b64DecodeVals, List.filterMap_nil, List.cons_eq_cons]
    exact ⟨by omega, by omega, trivial⟩
  | case4 b1 b2 b3 rest ih =>
    have h1 : b1 < 256 := hb b1 (by simp)
    have h2 : b2 < 256 := hb b2 (by simp)
    have h3 : b3 < 256 := hb b3 (by simp)
    have e1 : b64val (b64c (b1 / 4)) = some (b1 / 4) :=
      b64val_b64c _ (by omega)
    have e2 : b64val (b64c (b1 % 4 * 16 + b2 / 16)) =
        some (b1 % 4 * 16 + b2 / 16) := b64val_b64c _ (by omega)
    have e3 : b64val (b64c (b2 % 16 * 4 + b3 / 64)) =
        some (b2 % 16 * 4 + b3 / 64) := b64val_b64c _ (by omega)
    have e4 : b64val (b64c (b3 % 64)) = some (b3 % 64) :=
      b64val_b64c _ (by omega)
    have ihh := ih (fun b hbm => hb b (by simp [hbm]))
    simp only [base64EncodeChars, List.filterMap_cons, e1, e2, e3, e4,
      b64DecodeVals, List.cons_eq_cons]
    exact ⟨by omega, by omega, by omega, ihh⟩

theorem b64c_mem (n : Nat) : b64c n ∈ b64chars := by
  unfold b64c
  rcases Nat.lt_or_ge n b64chars.length with hlt | hge
  · rw [List.getD_eq_getElem _ _ hlt]
    exact List.getElem_mem hlt
  · rw [List.getD_eq_default _ _ hge]
    decide

theorem base64EncodeChars_mem (bs : List Nat) :
    ∀ c ∈ base64EncodeChars bs, c ∈ b64chars ∨ c = '=' := by
  induction bs using base64EncodeChars.induct with
  | case1 => simp [base64EncodeChars]
  | case2 b1 =>
    intro c hc
    simp only [base64EncodeChars, List.mem_cons, List.not_mem_nil,
      or_false] at hc
    rcases hc with h | h | h | h
    · exact Or.inl (by rw [h]; exact b64c_mem _)
    · exact Or.inl (by rw [h]; exact b64c_mem _)
    · exact Or.inr h
    · exact Or.inr h
  | case3 b1 b2 =>
    intro c hc
    simp only [base64EncodeChars, List.mem_cons, List.not_mem_nil,
      or_false] at hc
    rcases hc with h | h | h | h
    · exact Or.inl (by rw [h]; exact b64c_mem _)
    · exact Or.inl (by rw [h]; exact b64c_mem _)
    · exact Or.inl (by rw [h]; exact b64c_mem _)
    · exact Or.inr h
  | case4 b1 b2 b3 rest ih =>
    intro c hc
    simp only [base64EncodeChars, List.mem_cons] at hc
    rcases hc with h | h | h | h | h
    · exact Or.inl (by rw [h]; exact b64c_mem _)
    · exact Or.inl (by rw [h]; exact b64c_mem _)
    · exact Or.inl (by rw [h]; exact b64c_mem _)
    · exact Or.inl (by rw [h]; exact b64c_mem _)
    · exact ih c h

theorem mem_of_isPrefixL : ∀ pat cs : List Char,
    isPrefixL pat cs = true → ∀ c ∈ pat, c ∈ cs := by
  intro pat
  induction pat with
  | nil => intro cs _ c hc; simp at hc
  | cons p ps ih =>
    intro cs hpre c hc
    cases cs with
    | nil => simp [isPrefixL] at hpre
    | cons d ds =>
      simp only [isPrefixL, Bool.and_eq_true, decide_eq_true_eq] at hpre
      rcases List.mem_cons.1 hc with h | h
      · subst h
        rw [hpre.1]
        exact List.mem_cons_self _ _
      · exact List.mem_cons_of_mem _ (ih ds hpre.2 c h)

/-- A base64 string never matches the data-URL pattern: `:` is not in
the base64 alphabet. -/
theorem stripDataUrl_base64Encode (bs : List Nat) :
    stripDataUrlToBase64 (base64Encode bs) =
      { mime := "image/jpeg", base64 := base64Encode bs,
        isDataUrl := false, raw := base64Encode bs } := by
  have hpre : isPrefixL "data:image/".data (base64Encode bs).data = false := by
    cases hp : isPrefixL "data:image/".data (base64Encode bs).data with
    | false => rfl
    | true =>
      exfalso
      have hcolon : ':' ∈ base64EncodeChars bs :=
        mem_of_isPrefixL _ _ hp ':' (by decide)
      rcases base64EncodeChars_mem bs ':' hcolon with h | h
      · exact absurd h (by decide)
      · exact absurd h (by decide)
  unfold stripDataUrlToBase64
  dsimp only
  rw [hpre]
  simp

theorem base64Encode_ne_empty (bs : List Nat) (h : bs ≠ []) :
    base64Encode bs ≠ "" := by
  intro heq
  have hdata : base64EncodeChars bs = [] := congrArg String.data heq
  match bs, h with
  | b1 :: rest, _ =>
    cases rest with
    | nil => simp [base64EncodeChars] at hdata
    | cons b2 rest2 =>
      cases rest2 with
      | nil => simp [base64EncodeChars] at hdata
      | cons b3 rest3 => simp [base64EncodeChars] at hdata

/-! ## Per-claim results -/

/-- C1 (counterexample): an agent connects announcing tenant `CLA1` for
`dev-1` (the `tenant` query parameter is never read), and an admin whose
spec-level `allowedTenants = ["DLA2"]` does not cover `CLA1`
(`canAccessTenant = false`) nevertheless receives `dev-1` in
`GET /api/devices`, in the `devices_snapshot` on WS admit, and in every
admin broadcast — refuting "data about a device is revealed only if
`canAccessTenant(admin.allowedTenants, tenantOf(device))` holds". -/
theorem c1_counterexample :
    canAccessTenant ["DLA2"] "CLA1" = false
    ∧ wssConnection ServerState.empty 1 c1AgentParams 100 =
        .opened ⟨1, false, true, some "dev-1", none⟩ c1State
          [Out.toAdmins (Msg.devicePresence "dev-1" true (some 100)
            (some (some "1.0.5")))]
    ∧ ((apiDevices c1State (.valid 7 "adminDLA")).getD []).map
        (fun dto => dto.id) = ["dev-1"]
    ∧ wssConnection c1State 2 ⟨some "admin", none, .valid 7 "adminDLA",
          none, none⟩ 200 =
        .opened ⟨2, true, false, none, some "adminDLA"⟩ c1State
          [Out.toConn 2 (Msg.devicesSnapshot
            [⟨"dev-1", true, some 100, some "1.0.5"⟩])]
    ∧ deliverToAdmins [⟨2, true, false, none, some "adminDLA"⟩]
        (Msg.devicePresence "dev-1" true (some 100) (some (some "1.0.5"))) =
        [(2, Msg.devicePresence "dev-1" true (some 100)
          (some (some "1.0.5")))] := by
  refine ⟨rfl, ?_, rfl, ?_, rfl⟩ <;> rfl

/-- C2 (counterexample): agent connection 1 for device `d` is admitted;
a second agent connection 2 for the same `d` is admitted — the admit
emits only a presence broadcast (no close of connection 1) and
overwrites the registry entry; when connection 1 later closes, the close
handler deletes `d` from the agent registry and marks the device
disconnected even though connection 2 is the live, registered session —
refuting "the prior session is force-closed ... and the prior session's
later close does not evict the new session or mark the device
disconnected". -/
theorem c2_counterexample :
    wssConnection ServerState.empty 1 c2AgentParams 100 =
      .opened c2conn1 c2stA
        [Out.toAdmins (Msg.devicePresence "d" true (some 100) (some none))]
    ∧ wssConnection c2stA 2 c2AgentParams 200 =
      .opened c2conn2 c2stB
        [Out.toAdmins (Msg.devicePresence "d" true (some 200) (some none))]
    ∧ wsClose c2stB c2conn1 300 =
      (⟨[⟨"d", false, some 200, none⟩], [], [], [], [], [], []⟩,
       [Out.toAdmins (Msg.devicePresence "d" false (some 300) none)]) := by
  refine ⟨?_, ?_, ?_⟩ <;> rfl

/-- C3 (code evaluated at the failing input): opening
`GET /api/devices/dev-1/mjpeg` — the first (0 → 1) viewer for `dev-1`
while its agent is connected — performs no server-state change and sends
no WebSocket message to anyone, in particular no `stream-enable` /
`stream_enable` to the agent registered for `dev-1`; closing the viewer
likewise sends nothing (`ServerState` has no viewer count at all because
the source maintains none). -/
theorem c3_mjpeg_no_stream_signal :
    mjpegOpen c3State (.valid 1 "admin") "dev-1" =
      some { status := 200,
             contentType := "multipart/x-mixed-replace; boundary=frame",
             st := c3State, wsOuts := [] }
    ∧ lookupA c3State.wsAgentsByDeviceId "dev-1" = some 1
    ∧ mjpegClose c3State = (c3State, []) := by
  exact ⟨rfl, rfl, rfl⟩

/-- C6 (counterexample): an agent session for `d` sends a binary
WebSocket message whose payload is the JPEG header bytes
`FF D8 FF E0`.  `JSON.parse` throws on it (its first byte cannot start a
JSON document), the handler drops it without storing anything, and a
subsequent `GET /api/devices/d/frame` returns 404 rather than a body
equal to those bytes — refuting the binary-frame round-trip. -/
theorem c6_counterexample :
    wsMessage ServerState.empty [] c6AgentConn (.binary c6B) 300 =
      (ServerState.empty, [])
    ∧ apiFrame (wsMessage ServerState.empty [] c6AgentConn
        (.binary c6B) 300).1 (.valid 1 "admin") "d" = .notFound
    ∧ jsonStartOk c6B = false := by
  exact ⟨rfl, rfl, rfl⟩

/-- C7 (counterexample): a PUT of alias `"Nice PC"` for `dev-7` whose
synchronous JSON rewrite fails returns `{ok:true}` (not HTTP 500), keeps
the mutated in-memory alias map, and leaves the file without the entry —
refuting "the operation returns an error to the caller (HTTP 500) and
the in-memory state is rolled back". -/
theorem c7_counterexample :
    putAliasHandler ServerState.empty none "dev-7" (some "Nice PC") false 42 =
      (.okResp "dev-7" "Nice PC" 42,
       { ServerState.empty with
           deviceAliases := [("dev-7", ⟨"Nice PC", 42⟩)] },
       none) := by
  rfl

/-- C8 (code evaluated at the failing input): POSTing the compliance
event `{deviceId:"d1", content:"hello"}` (no trigger matches, so
`suspicious = false`) with a successful save leaves the in-memory
aggregate empty — `aggregate("d1").count = 0` — while replaying the
persisted log (the startup recomputation) yields `count = 1` for `d1`;
the claim "the in-memory aggregate equals the aggregate recomputed from
the persisted event log, and aggregate(d).count equals the number of
events for d in the log" fails on this append. -/
theorem c8_aggregate_replay_divergence :
    c8Result.1 = .okResp false
      ⟨"cev_1000_r0", "d1", none, "admin", none, 1000, "hello", [], none,
       false⟩
    ∧ c8Result.2.1.complianceByDevice = []
    ∧ getComplianceState c8Result.2.1 "d1" = (false, 0, none, none)
    ∧ c8Result.2.1.complianceEvents.length = 1
    ∧ lookupA (recomputeComplianceAgg c8Result.2.1.complianceEvents) "d1" =
        some ⟨1, 1000, none⟩
    ∧ (startupComplianceState c8Result.2.2.1).2 = [("d1", ⟨1, 1000, none⟩)] := by
  refine ⟨?_, ?_, ?_, ?_, ?_, ?_⟩ <;> rfl

/-- C9 (counterexample): with alias `"Front Desk"` stored for `dev-9`,
a PUT with an empty label leaves an entry `{label:"", updatedAt}` for
`dev-9` in the in-memory map, lists it in `GET /api/device-aliases`, and
persists it to the file, where a restart reloads it — refuting
"afterwards no alias entry for id exists in memory ... and no entry for
id is present in the persisted device-aliases.json". -/
theorem c9_counterexample :
    c9Result.2.1.deviceAliases = [("dev-9", ⟨"", 20⟩)]
    ∧ apiListAliases c9Result.2.1 (.valid 1 "admin") =
        some [("dev-9", ⟨"", 20⟩)]
    ∧ c9Result.2.2 = some [("dev-9", ⟨"", 20⟩)]
    ∧ lookupA (loadAliases c9Result.2.2) "dev-9" = some ⟨"", 20⟩ := by
  refine ⟨?_, ?_, ?_, ?_⟩ <;> rfl

/-- C10: a WebSocket connection that is not admitted as admin or agent —
`role` missing or unrecognized, or `role=agent` with an empty/missing
`deviceId` — is left open with no flags (the handler falls through
without calling `ws.close`), and every connection, whatever its flags or
authentication, that sends `{type:"ping"}` gets exactly one
`{type:"pong"}` reply. -/
theorem c10_unadmitted_left_open_ping_pong :
    (∀ (st : ServerState) (connId : Nat) (q : QueryParams) (now : Nat),
      ¬ (q.role = some "admin") →
      ¬ (q.role = some "agent" ∧ normDeviceId q.deviceId ≠ "") →
      wssConnection st connId q now = .opened (Conn.fresh connId) st [])
    ∧ (∀ (st : ServerState) (openConns : List Nat) (c : Conn) (now : Nat),
      (wsMessage st openConns c (.text (some .ping)) now).2 =
        [Out.toConn c.id Msg.pong]) := by
  constructor
  · intro st connId q now h1 h2
    unfold wssConnection
    dsimp only
    rw [if_neg h1, if_neg h2]
  · intro st openConns c now
    rfl

/-- C10 witness: a role-less, token-less connection is left open, and a
ping on it is answered with pong. -/
theorem c10_witness :
    wssConnection ServerState.empty 5 ⟨none, none, .invalid, none, none⟩ 0 =
      .opened (Conn.fresh 5) ServerState.empty []
    ∧ (wsMessage ServerState.empty [] (Conn.fresh 5)
        (.text (some .ping)) 0).2 = [Out.toConn 5 Msg.pong] := by
  exact ⟨c10_unadmitted_left_open_ping_pong.1 ServerState.empty 5
      ⟨none, none, .invalid, none, none⟩ 0 (by simp) (by simp),
    c10_unadmitted_left_open_ping_pong.2 ServerState.empty [] (Conn.fresh 5) 0⟩

/-- C4: for an admin session sending
`{type:"request_remote_access", deviceId}`: with no open agent session
for that device the server replies
`consent_response{deviceId, accepted:false, reason:"agent_offline"}` to
the requesting admin; with an open agent session it sends
`consent_request{admin: username}` to that agent and
`consent_status{deviceId, status:"sent_to_agent"}` to the admin. -/
theorem c4_request_remote_access (st : ServerState) (openConns : List Nat)
    (c : Conn) (did : Option String) (u : String) (now : Nat)
    (hAdmin : c.isAdmin = true) (hUser : c.adminUser = some u) :
    (agentSessionOpen st openConns (normDeviceId did) = false →
      wsMessageJson st openConns c (.requestRemoteAccess did) now =
        (st, [Out.toConn c.id (Msg.consentResponseMsg
          (some (normDeviceId did)) false (some "agent_offline"))]))
    ∧ (∀ agentConn,
        lookupA st.wsAgentsByDeviceId (normDeviceId did) = some agentConn →
        agentConn ∈ openConns →
        wsMessageJson st openConns c (.requestRemoteAccess did) now =
          (st, [Out.toConn agentConn (Msg.consentRequest (some u)),
                Out.toConn c.id
                  (Msg.consentStatus (normDeviceId did) "sent_to_agent")])) := by
  constructor
  · intro hoff
    unfold agentSessionOpen at hoff
    unfold wsMessageJson
    dsimp only
    rw [if_pos hAdmin]
    cases hlk : lookupA st.wsAgentsByDeviceId (normDeviceId did) with
    | none => rfl
    | some a =>
      rw [hlk] at hoff
      dsimp only at hoff ⊢
      rw [if_neg (of_decide_eq_false hoff)]
  · intro a hlk hmem
    unfold wsMessageJson
    dsimp only
    rw [if_pos hAdmin, hlk]
    dsimp only
    rw [if_pos hmem, hUser]

/-- C4 witness: both branches at concrete states — the agent for `d`
lives on open connection 5 (request succeeds), and device `x` has no
agent session (offline reply). -/
theorem c4_request_remote_access_witness :
    wsMessageJson c4State [5] c4AdminConn
        (.requestRemoteAccess (some "d")) 7 =
      (c4State, [Out.toConn 5 (Msg.consentRequest (some "root")),
                 Out.toConn 9 (Msg.consentStatus "d" "sent_to_agent")])
    ∧ wsMessageJson c4State [5] c4AdminConn
        (.requestRemoteAccess (some "x")) 7 =
      (c4State, [Out.toConn 9 (Msg.consentResponseMsg (some "x") false
        (some "agent_offline"))]) := by
  constructor
  · exact (c4_request_remote_access c4State [5] c4AdminConn (some "d")
      "root" 7 rfl rfl).2 5 rfl (by simp)
  · exact (c4_request_remote_access c4State [5] c4AdminConn (some "x")
      "root" 7 rfl rfl).1 rfl

/-- C5: an incoming JSON frame for device `d` at time `now` can change
the stored latest frame only when the previous accepted time is at least
`MIN_FRAME_INTERVAL_MS` (250 ms) old — or no frame was ever accepted —
and a frame arriving inside the throttle window is discarded entirely:
neither the stored frame nor the accepted-time map changes. -/
theorem c5_frame_throttle (st : ServerState) (openConns : List Nat)
    (c : Conn) (jb j : Option String) (now : Nat)
    (hAgent : c.isAgent = true) :
    (lookupA (wsMessageJson st openConns c
          (.frameMsg jb j) now).1.lastFrameByDevice (c.deviceId.getD "") ≠
        lookupA st.lastFrameByDevice (c.deviceId.getD "") →
      lookupA st.lastFrameSentAtByDevice (c.deviceId.getD "") = none ∨
      (∃ prev,
        lookupA st.lastFrameSentAtByDevice (c.deviceId.getD "") = some prev ∧
        prev + MIN_FRAME_INTERVAL_MS ≤ now))
    ∧ (∀ prev,
        lookupA st.lastFrameSentAtByDevice (c.deviceId.getD "") = some prev →
        now - prev < MIN_FRAME_INTERVAL_MS →
        (wsMessageJson st openConns c
            (.frameMsg jb j) now).1.lastFrameByDevice =
          st.lastFrameByDevice ∧
        (wsMessageJson st openConns c
            (.frameMsg jb j) now).1.lastFrameSentAtByDevice =
          st.lastFrameSentAtByDevice) := by
  have hframes :
      (updDevice (upsertDevice st (c.deviceId.getD ""))
          (c.deviceId.getD "")
          (fun d => { d with lastSeen := some now })).lastFrameByDevice =
        st.lastFrameByDevice ∧
      (updDevice (upsertDevice st (c.deviceId.getD ""))
          (c.deviceId.getD "")
          (fun d => { d with lastSeen := some now })).lastFrameSentAtByDevice =
        st.lastFrameSentAtByDevice := by
    have h1 := updDevice_frames (upsertDevice st (c.deviceId.getD ""))
      (c.deviceId.getD "") (fun d => { d with lastSeen := some now })
    have h2 := upsertDevice_frames st (c.deviceId.getD "")
    exact ⟨h1.2.1.trans h2.2.1, h1.2.2.1.trans h2.2.2.1⟩
  show _ ∧ _
  unfold wsMessageJson
  dsimp only
  unfold wsMessageJson.handleFrame
  rw [if_pos hAgent]
  set payload :=
    (match jb with
     | some s => s
     | none => match j with
               | some s => s
               | none => "") with hpay
  by_cases hemp : payload = ""
  · rw [if_pos hemp]
    constructor
    · intro hne
      exact absurd rfl hne
    · intro prev _ _
      exact ⟨rfl, rfl⟩
  · rw [if_neg hemp]
    dsimp only
    rw [hframes.2]
    by_cases hthr :
        now - (lookupA st.lastFrameSentAtByDevice
          (c.deviceId.getD "")).getD 0 < MIN_FRAME_INTERVAL_MS
    · rw [if_pos hthr]
      constructor
      · intro hne
        rw [hframes.1] at hne
        exact absurd rfl hne
      · intro prev _ _
        exact ⟨hframes.1, hframes.2⟩
    · rw [if_neg hthr]
      constructor
      · intro _
        cases hlk : lookupA st.lastFrameSentAtByDevice (c.deviceId.getD "")
          with
        | none => exact Or.inl rfl
        | some prev =>
          refine Or.inr ⟨prev, rfl, ?_⟩
          rw [hlk] at hthr
          simp only [Option.getD_some] at hthr
          unfold MIN_FRAME_INTERVAL_MS at hthr ⊢
          omega
      · intro prev hlk hlt
        rw [hlk] at hthr
        simp only [Option.getD_some] at hthr
        exact absurd hlt hthr

/-- C5 witness: with the previous frame accepted at t = 100, a frame at
t = 150 (inside the 250 ms window) leaves both the stored frame and the
accepted-time map untouched. -/
theorem c5_frame_throttle_witness :
    (wsMessageJson c5State [] c5AgentConn
        (.frameMsg (some "NEW") none) 150).1.lastFrameByDevice =
      [("d", "OLD")]
    ∧ (wsMessageJson c5State [] c5AgentConn
        (.frameMsg (some "NEW") none) 150).1.lastFrameSentAtByDevice =
      [("d", 100)] := by
  have h := (c5_frame_throttle c5State [] c5AgentConn (some "NEW") none 150
    rfl).2 100 rfl (by decide)
  exact h

/-- C1 (amended): the server enforces no tenant scoping at all — the
token carries no `allowedTenants` and devices record no tenant, so any
authenticated admin identity is shown every device: `GET /api/devices`
returns the full device list (independently of the identity),
`GET /{id}/frame` and `/{id}/mjpeg` answer identically for every valid
token, the admin WS admit sends a snapshot of all devices, and a
broadcast message is delivered to every admin connection. -/
theorem c1_no_tenant_scoping (st : ServerState) (i : Nat) (u : String)
    (d : Device) (hd : d ∈ st.devices) (didRaw : String) :
    deviceDTO st d ∈ (apiDevices st (.valid i u)).getD []
    ∧ apiDevices st (.valid i u) = some (st.devices.map (deviceDTO st))
    ∧ apiFrame st (.valid i u) didRaw = apiFrame st (.valid 0 "") didRaw
    ∧ mjpegOpen st (.valid i u) didRaw =
        some { status := 200,
               contentType := "multipart/x-mixed-replace; boundary=frame",
               st := st, wsOuts := [] }
    ∧ (∀ (conns : List Conn) (c : Conn), c ∈ conns → c.isAdmin = true →
        ∀ m : Msg, (c.id, m) ∈ deliverToAdmins conns m)
    ∧ (∀ (connId now : Nat) (q : QueryParams), q.role = some "admin" →
        q.token = .valid i u →
        wssConnection st connId q now =
          .opened ⟨connId, true, false, none, some u⟩
            st [Out.toConn connId (Msg.devicesSnapshot st.devices)]) := by
  refine ⟨?_, rfl, rfl, rfl, ?_, ?_⟩
  · show deviceDTO st d ∈ st.devices.map (deviceDTO st)
    exact List.mem_map_of_mem _ hd
  · intro conns c hc hadm m
    unfold deliverToAdmins
    exact List.mem_map_of_mem _ (List.mem_filter.2 ⟨hc, by simp [hadm]⟩)
  · intro connId now q hrole htok
    unfold wssConnection
    dsimp only
    rw [if_pos hrole, htok]
    rfl

/-- C1 witness: with `dev-1` in the state, admin identity 7
(`"adminDLA"`) receives it through every path. -/
theorem c1_no_tenant_scoping_witness :
    deviceDTO c1State ⟨"dev-1", true, some 100, some "1.0.5"⟩ ∈
      (apiDevices c1State (.valid 7 "adminDLA")).getD []
    ∧ apiDevices c1State (.valid 7 "adminDLA") =
        some (c1State.devices.map (deviceDTO c1State)) := by
  have h := c1_no_tenant_scoping c1State 7 "adminDLA"
    ⟨"dev-1", true, some 100, some "1.0.5"⟩ (by decide) "dev-1"
  exact ⟨h.1, h.2.1⟩

/-- C2 (amended): the agent registry keeps at most one entry per
deviceId — a new agent connection overwrites the entry — but the prior
socket is not closed by the admit (no close action is emitted), and
when any agent-flagged socket for that deviceId later closes, the close
handler unconditionally deletes the registry entry and marks the device
disconnected, even if the entry belongs to a newer live session. -/
theorem c2_supplant_behavior (st : ServerState) (connId now : Nat)
    (q : QueryParams) (hrole : q.role = some "agent")
    (hne : normDeviceId q.deviceId ≠ "")
    (c : Conn) (st' : ServerState) (outs : List Out)
    (hopened : wssConnection st connId q now = .opened c st' outs) :
    lookupA st'.wsAgentsByDeviceId (normDeviceId q.deviceId) = some connId
    ∧ (outs.all (fun o => match o with
        | Out.closeConn _ _ _ => false
        | _ => true)) = true
    ∧ (∀ (c' : Conn) (now' : Nat), c'.isAgent = true →
        c'.deviceId = some (normDeviceId q.deviceId) →
        lookupA (wsClose st' c' now').1.wsAgentsByDeviceId
          (normDeviceId q.deviceId) = none
        ∧ (∀ dev,
            findDevice (wsClose st' c' now').1 (normDeviceId q.deviceId) =
              some dev → dev.connected = false)) := by
  have hclose : ∀ (s : ServerState) (c' : Conn) (now' : Nat),
      c'.isAgent = true → c'.deviceId = some (normDeviceId q.deviceId) →
      lookupA (wsClose s c' now').1.wsAgentsByDeviceId
        (normDeviceId q.deviceId) = none
      ∧ (∀ dev, findDevice (wsClose s c' now').1 (normDeviceId q.deviceId) =
          some dev → dev.connected = false) := by
    intro s c' now' hugent hdid
    unfold wsClose
    rw [if_pos ⟨hugent, by rw [hdid]; rfl⟩]
    dsimp only
    rw [hdid]
    constructor
    · show lookupA (eraseA _ ((some (normDeviceId q.deviceId)).getD "")) _ =
        none
      exact lookupA_eraseA _ _
    · intro dev hfind
      have hmap := findDevice_updDevice s (normDeviceId q.deviceId)
        (fun d => { d with connected := false }) (fun d => rfl)
      have hfind2 : (findDevice s (normDeviceId q.deviceId)).map
          (fun d => { d with connected := false }) = some dev := by
        rw [← hmap]
        exact hfind
      cases hs : findDevice s (normDeviceId q.deviceId) with
      | none =>
        rw [hs] at hfind2
        exact absurd hfind2 (by simp)
      | some dev0 =>
        rw [hs] at hfind2
        simp only [Option.map_some'] at hfind2
        have hdev := Option.some.inj hfind2
        rw [← hdev]
  unfold wssConnection at hopened
  dsimp only at hopened
  rw [if_neg (by rw [hrole]; simp), if_pos ⟨hrole, hne⟩] at hopened
  rw [ConnOutcome.opened.injEq] at hopened
  obtain ⟨_, hst, houts⟩ := hopened
  refine ⟨?_, ?_, fun c' now' h1 h2 => hclose st' c' now' h1 h2⟩
  · rw [← hst]
    exact lookupA_setA _ _ _
  · rw [← houts]
    rfl

/-- C2 witness: the concrete two-connection race for device `d`. -/
theorem c2_supplant_behavior_witness :
    lookupA c2stB.wsAgentsByDeviceId "d" = some 2
    ∧ lookupA (wsClose c2stB c2conn1 300).1.wsAgentsByDeviceId "d" = none := by
  have h := c2_supplant_behavior c2stA 2 200 c2AgentParams rfl
    (by decide) c2conn2 c2stB
    [Out.toAdmins (Msg.devicePresence "d" true (some 200) (some none))]
    (by rfl)
  exact ⟨h.1, (h.2.2 c2conn1 300 rfl rfl).1⟩

/-- C7 (amended): persistence failure is not atomic and is not rolled
back: on a failed rewrite the alias PUT ignores the failure entirely —
it replies `{ok:true, ...}` and keeps the mutated in-memory alias map
while the file stays unchanged — and the compliance POST replies 500
but leaves the appended event in the in-memory list (no rollback),
with the file unchanged. -/
theorem c7_persistence_failure_ignored (st : ServerState)
    (file : FileAliases) (idRaw label : String) (now : Nat)
    (hid : normDeviceId (some idRaw) ≠ "")
    (st2 : ServerState) (file2 : FileCEvents)
    (adminUser did content rand : String)
    (hdid : normDeviceId (some did) ≠ "") (hcontent : jsTrim content ≠ "") :
    (putAliasHandler st file idRaw (some label) false now).1 =
      .okResp (normDeviceId (some idRaw)) (jsTrim label) now
    ∧ (putAliasHandler st file idRaw (some label) false now).2.1.deviceAliases
        = setA st.deviceAliases (normDeviceId (some idRaw)) ⟨jsTrim label, now⟩
    ∧ (putAliasHandler st file idRaw (some label) false now).2.2 = file
    ∧ (postComplianceEvent st2 file2 adminUser (some did) none (some content)
        false now rand).1 = .serverError
    ∧ (postComplianceEvent st2 file2 adminUser (some did) none (some content)
        false now rand).2.1.complianceEvents.length =
        st2.complianceEvents.length + 1
    ∧ (postComplianceEvent st2 file2 adminUser (some did) none (some content)
        false now rand).2.2.1 = file2 := by
  have halias :
      putAliasHandler st file idRaw (some label) false now =
        (.okResp (normDeviceId (some idRaw)) (jsTrim label) now,
         { st with
             deviceAliases :=
               setA st.deviceAliases (normDeviceId (some idRaw))
                 ⟨jsTrim label, now⟩ },
         file) := by
    unfold putAliasHandler
    rw [if_neg hid]
    rfl
  have hcomp :
      postComplianceEvent st2 file2 adminUser (some did) none (some content)
          false now rand =
        (.serverError,
         { st2 with
             complianceEvents :=
               st2.complianceEvents ++
                 [{ id := "cev_" ++ toString now ++ "_" ++ rand,
                    deviceId := normDeviceId (some did),
                    aliasLabel :=
                      if getAliasLabel st2 (normDeviceId (some did)) = ""
                      then none
                      else some (getAliasLabel st2 (normDeviceId (some did))),
                    author := jsTrim adminUser,
                    context :=
                      if jsTrim ((none : Option String).getD "") = ""
                      then none
                      else some (jsTrim ((none : Option String).getD "")),
                    timestamp := now,
                    content := jsTrim content,
                    matchList := (detectCompliance (jsTrim content)).2.1,
                    severity :=
                      if (detectCompliance (jsTrim content)).1
                      then (detectCompliance (jsTrim content)).2.2
                      else none,
                    suspicious := (detectCompliance (jsTrim content)).1 }] },
         file2, []) := by
    unfold postComplianceEvent
    rw [if_neg hdid]
    rw [if_neg (by
      show ¬ jsTrim ((some content).getD "") = ""
      exact hcontent)]
    rfl
  refine ⟨?_, ?_, ?_, ?_, ?_, ?_⟩
  · rw [halias]
  · rw [halias]
  · rw [halias]
  · rw [hcomp]
  · rw [hcomp]
    simp
  · rw [hcomp]

/-- C7 witness: the alias PUT and the compliance POST at concrete
inputs with a failing save. -/
theorem c7_persistence_failure_ignored_witness :
    (putAliasHandler ServerState.empty none "dev-7" (some "PC") false 42).1 =
      .okResp "dev-7" "PC" 42
    ∧ (postComplianceEvent ServerState.empty none "admin" (some "d1") none
        (some "hello") false 42 "r1").1 = .serverError := by
  have h := c7_persistence_failure_ignored ServerState.empty none "dev-7"
    "PC" 42 (by decide) ServerState.empty none "admin" "d1" "hello" "r1"
    (by decide) (by decide)
  exact ⟨h.1, h.2.2.2.1⟩

/-- C9 (amended): `PUT /api/device-aliases/{id}` with an empty label
does not delete the alias: it stores an entry `{label:"", updatedAt}`
for the id, which stays in the in-memory map and — when the save
succeeds — is written to `device-aliases.json` and survives a
restart. -/
theorem c9_empty_label_stores_entry (st : ServerState) (file : FileAliases)
    (idRaw : String) (now : Nat) (saveOk : Bool)
    (hid : normDeviceId (some idRaw) ≠ "") :
    (putAliasHandler st file idRaw (some "") saveOk now).1 =
      .okResp (normDeviceId (some idRaw)) "" now
    ∧ lookupA (putAliasHandler st file idRaw
        (some "") saveOk now).2.1.deviceAliases (normDeviceId (some idRaw)) =
        some ⟨"", now⟩
    ∧ (saveOk = true →
        (putAliasHandler st file idRaw (some "") saveOk now).2.2 =
          some (setA st.deviceAliases (normDeviceId (some idRaw)) ⟨"", now⟩))
    ∧ (saveOk = true →
        lookupA (loadAliases
            (putAliasHandler st file idRaw (some "") saveOk now).2.2)
          (normDeviceId (some idRaw)) = some ⟨"", now⟩) := by
  have hput : putAliasHandler st file idRaw (some "") saveOk now =
      (.okResp (normDeviceId (some idRaw)) "" now,
       { st with
           deviceAliases :=
             setA st.deviceAliases (normDeviceId (some idRaw)) ⟨"", now⟩ },
       (saveJsonSafeAliases saveOk file
         (setA st.deviceAliases (normDeviceId (some idRaw)) ⟨"", now⟩)).2) := by
    unfold putAliasHandler
    rw [if_neg hid]
    rfl
  refine ⟨?_, ?_, ?_, ?_⟩
  · rw [hput]
  · rw [hput]
    exact lookupA_setA _ _ _
  · intro hok
    rw [hput]
    show (saveJsonSafeAliases saveOk file _).2 = _
    rw [hok]
    rfl
  · intro hok
    rw [hput]
    show lookupA (loadAliases (saveJsonSafeAliases saveOk file _).2) _ = _
    rw [hok]
    show lookupA (loadAliases (some _)) _ = _
    unfold loadAliases
    exact lookupA_setA _ _ _

/-- C9 witness: putting an empty label for `dev-9` at t = 20 with a
successful save. -/
theorem c9_empty_label_stores_entry_witness :
    (putAliasHandler c9State (some [("dev-9", ⟨"Front Desk", 10⟩)]) "dev-9"
        (some "") true 20).1 = .okResp "dev-9" "" 20
    ∧ lookupA (putAliasHandler c9State (some [("dev-9", ⟨"Front Desk", 10⟩)])
        "dev-9" (some "") true 20).2.1.deviceAliases "dev-9" =
        some ⟨"", 20⟩ := by
  have h := c9_empty_label_stores_entry c9State
    (some [("dev-9", ⟨"Front Desk", 10⟩)]) "dev-9" 20 true (by decide)
  exact ⟨h.1, h.2.1⟩

/-- C6 (amended): the frame round-trip holds for the JSON frame path
(the only one the server accepts): when the agent session for `d` sends
`{type:"frame", jpegBase64: base64(B)}` and the throttle window has
passed, the handler stores the payload verbatim, and a subsequent
`GET /api/devices/d/frame` with no intervening newer frame returns a
body bytewise equal to `B` with mime `image/jpeg`. -/
theorem c6_json_frame_roundtrip (st : ServerState) (openConns : List Nat)
    (c : Conn) (d : String) (B : List Nat) (now i : Nat) (u : String)
    (hAgent : c.isAgent = true) (hdid : c.deviceId = some d)
    (hnorm : jsTrim d = d)
    (hB : ∀ b ∈ B, b < 256) (hBne : B ≠ [])
    (hgap : (lookupA st.lastFrameSentAtByDevice d).getD 0 +
      MIN_FRAME_INTERVAL_MS ≤ now) :
    apiFrame (wsMessageJson st openConns c
        (.frameMsg (some (base64Encode B)) none) now).1 (.valid i u) d =
      .ok "image/jpeg" B := by
  have hne : base64Encode B ≠ "" := base64Encode_ne_empty B hBne
  have hframesA := upsertDevice_frames st d
  have hframesB := updDevice_frames (upsertDevice st d) d
    (fun dd => { dd with lastSeen := some now })
  have hsent : (updDevice (upsertDevice st d) d
      (fun dd => { dd with lastSeen := some now })).lastFrameSentAtByDevice =
      st.lastFrameSentAtByDevice := hframesB.2.2.1.trans hframesA.2.2.1
  have hlast : (updDevice (upsertDevice st d) d
      (fun dd => { dd with lastSeen := some now })).lastFrameByDevice =
      st.lastFrameByDevice := hframesB.2.1.trans hframesA.2.1
  have hthr : ¬ (now - (lookupA (updDevice (upsertDevice st d) d
      (fun dd => { dd with lastSeen := some now })).lastFrameSentAtByDevice
        d).getD 0 < MIN_FRAME_INTERVAL_MS) := by
    rw [hsent]
    simp only [MIN_FRAME_INTERVAL_MS] at hgap ⊢
    omega
  have hmsg : (wsMessageJson st openConns c
      (.frameMsg (some (base64Encode B)) none) now).1.lastFrameByDevice =
      setA st.lastFrameByDevice d (base64Encode B) := by
    unfold wsMessageJson
    dsimp only
    unfold wsMessageJson.handleFrame
    rw [if_pos hAgent, hdid]
    dsimp only
    simp only [Option.getD_some]
    rw [if_neg hne]
    rw [if_neg hthr]
    dsimp only
    rw [hlast]
  unfold apiFrame
  dsimp only
  have hnorm2 : normDeviceId (some d) = d := hnorm
  rw [hnorm2, hmsg, lookupA_setA]
  dsimp only
  rw [stripDataUrl_base64Encode]
  dsimp only
  rw [base64_roundtrip B hB]

/-- C6 witness: round-tripping the four JPEG header bytes through the
JSON frame path on an empty state. -/
theorem c6_json_frame_roundtrip_witness :
    apiFrame (wsMessageJson ServerState.empty [] c6AgentConn
        (.frameMsg (some (base64Encode c6B)) none) 300).1
      (.valid 1 "admin") "d" = .ok "image/jpeg" c6B := by
  exact c6_json_frame_roundtrip ServerState.empty [] c6AgentConn "d" c6B 300
    1 "admin" rfl rfl rfl (by decide) (by decide) (by decide)

end Lookout
